import Mathlib

/-!
Verification of `backend/base/apps.py` from the repository
seankwarren/Django-React-jwt-authentication.

The source file is the Django application-configuration descriptor:

  class BaseConfig(AppConfig):
      default_auto_field = "django.db.models.BigAutoField"
      name = "base"

      def ready(self):
          from .signals import create_profile, save_profile

We shallowly embed the descriptor's class-level attributes as Lean
constants, and the body of `ready` — a single Python `from .. import ..`
statement — via an explicit model of CPython's import machinery acting on
an explicit process state (module cache plus the signal registrations
performed by import-time side effects).  Since `base/signals.py` is not
part of the provided source, the sibling module is a parameter of the
embedding; the concrete module described by the spec is modelled
separately below.
-/

/-- A Python exception as observed by the import machinery: either the
ImportError raised when a requested name is missing from the imported
module, or an arbitrary exception escaping the module's top-level code. -/
inductive PyExc where
  | importError : PyExc
  | other : String → PyExc
deriving DecidableEq, Repr

/-- A Python module as seen by a `from M import n1, ..., nk` statement:
the names its namespace defines after its top level ran, whether its
top-level code raises (and which exception), and which signal handlers
its top-level side effects register, in order. -/
structure PyModule where
  exports : List String
  raisesAtTopLevel : Option PyExc
  registers : List String
deriving DecidableEq, Repr

/-- Observable process state for this embedding: the two descriptor
attributes (the descriptor is instantiated once by the host and lives for
the process duration), whether the sibling signals module is present in
the module cache (sys.modules), and the sequence of handler
registrations performed so far. -/
structure ProcState where
  default_auto_field : String
  name : String
  sigModuleLoaded : Bool
  registrations : List String
deriving DecidableEq, Repr

namespace BaseConfig

/-- Class attribute `default_auto_field` of `BaseConfig` (apps.py line 4). -/
def default_auto_field : String := "django.db.models.BigAutoField"

/-- Class attribute `name` of `BaseConfig` (apps.py line 5). -/
def name : String := "base"

end BaseConfig

/-- The process state right after the host instantiates the descriptor at
startup: class attributes in place, the sibling signals module not yet
imported, no handler registered. -/
def initState : ProcState :=
  { default_auto_field := BaseConfig.default_auto_field
  , name := BaseConfig.name
  , sigModuleLoaded := false
  , registrations := [] }

/-- Semantics of the Python statement `from .signals import n1, ..., nk`
executed in process state `s` when the sibling module is `m`: if the
module is already in the module cache its top level is not re-executed;
otherwise its top level runs (performing its registration side effects,
or raising) and the module is cached; finally every requested name must
be among the module's exports, else ImportError is raised.  Exceptions
are returned, never swallowed. -/
def fromImport (m : PyModule) (names : List String) (s : ProcState) :
    Except PyExc ProcState :=
  if s.sigModuleLoaded then
    if names.all (fun n => m.exports.contains n) then .ok s
    else .error .importError
  else
    match m.raisesAtTopLevel with
    | some e => .error e
    | none =>
      let s' := { s with sigModuleLoaded := true
                       , registrations := s.registrations ++ m.registers }
      if names.all (fun n => m.exports.contains n) then .ok s'
      else .error .importError

/-- `BaseConfig.ready` (apps.py lines 7-8).  Its body is exactly
`from .signals import create_profile, save_profile`; in Python the method
takes no argument beyond the instance and falls off the end, returning
None — embedded here as the `Unit` component of the result.  The sibling
module `m` is a parameter because `base/signals.py` is not part of the
provided source. -/
def BaseConfig.ready (m : PyModule) (s : ProcState) :
    Except PyExc (Unit × ProcState) :=
  match fromImport m ["create_profile", "save_profile"] s with
  | .error e => .error e
  | .ok s' => .ok ((), s')

/-- Modelled from the spec: the sibling module `base/signals.py` is
missing from the provided source.  Per the spec it defines the two
handlers `create_profile` and `save_profile`, and importing it causes
their registration decorators to execute, registering each handler once;
its top level raises nothing. -/
def signalsModule : PyModule :=
  { exports := ["create_profile", "save_profile"]
  , raisesAtTopLevel := none
  , registers := ["create_profile", "save_profile"] }

/-- The hook as worded by the spec: its only executable behavior is
performing the from-import of exactly the two names `create_profile` and
`save_profile` from the sibling module, returning nothing. -/
def readyPerSpec (m : PyModule) (s : ProcState) :
    Except PyExc (Unit × ProcState) :=
  Except.map (fun t => ((), t)) (fromImport m ["create_profile", "save_profile"] s)

/-- `n` successive invocations of the hook on the same process, stopping
at the first raised exception. -/
def readyIter (m : PyModule) : Nat → ProcState → Except PyExc ProcState
  | 0, s => .ok s
  | n + 1, s =>
    match BaseConfig.ready m s with
    | .error e => .error e
    | .ok (_, s') => readyIter m n s'

/-- The process state after the first successful invocation of the hook
with the spec-modelled signals module: module cached, both handlers
registered once. -/
def stateAfterOne : ProcState :=
  { default_auto_field := BaseConfig.default_auto_field
  , name := BaseConfig.name
  , sigModuleLoaded := true
  , registrations := ["create_profile", "save_profile"] }

/-- Helper: a successful `ready` leaves the descriptor attributes
untouched, leaves the module cached, and certifies that both requested
names are exported by the sibling module. -/
theorem ready_ok_inv (m : PyModule) (s : ProcState) (u : Unit) (s' : ProcState)
    (h : BaseConfig.ready m s = .ok (u, s')) :
    s'.name = s.name ∧ s'.default_auto_field = s.default_auto_field ∧
    s'.sigModuleLoaded = true ∧
    (m.exports.contains "create_profile" = true ∧
     m.exports.contains "save_profile" = true) := by
  unfold BaseConfig.ready fromImport at h
  by_cases hl : s.sigModuleLoaded
  · simp only [hl, if_true] at h
    by_cases hc : (["create_profile", "save_profile"].all
        (fun n => m.exports.contains n)) = true
    · simp only [hc, if_true] at h
      cases h
      simp only [List.all_cons, List.all_nil, Bool.and_true, Bool.and_eq_true] at hc
      exact ⟨rfl, rfl, hl, hc⟩
    · simp only [eq_false_of_ne_true hc, if_false] at h
      cases h
  · simp only [hl, if_false] at h
    cases hr : m.raisesAtTopLevel with
    | some e => rw [hr] at h; cases h
    | none =>
      rw [hr] at h
      simp only at h
      by_cases hc : (["create_profile", "save_profile"].all
          (fun n => m.exports.contains n)) = true
      · simp only [hc, if_true] at h
        cases h
        simp only [List.all_cons, List.all_nil, Bool.and_true, Bool.and_eq_true] at hc
        exact ⟨rfl, rfl, rfl, hc⟩
      · simp only [eq_false_of_ne_true hc, if_false] at h
        cases h

/-- Helper: once the sibling module is cached and exports both names, the
hook returns successfully without changing the process state at all. -/
theorem ready_loaded_fix (m : PyModule) (s : ProcState)
    (hl : s.sigModuleLoaded = true)
    (h1 : m.exports.contains "create_profile" = true)
    (h2 : m.exports.contains "save_profile" = true) :
    BaseConfig.ready m s = .ok ((), s) := by
  have m1 : "create_profile" ∈ m.exports := by simpa using h1
  have m2 : "save_profile" ∈ m.exports := by simpa using h2
  unfold BaseConfig.ready fromImport
  simp [hl, m1, m2]

/-- Helper: iterating the hook from a state where the module is cached
and exports both names is the identity. -/
theorem readyIter_fix (k : Nat) (m : PyModule) (s : ProcState)
    (hl : s.sigModuleLoaded = true)
    (h1 : m.exports.contains "create_profile" = true)
    (h2 : m.exports.contains "save_profile" = true) :
    readyIter m k s = .ok s := by
  induction k with
  | zero => rfl
  | succ n ih =>
    rw [readyIter, ready_loaded_fix m s hl h1 h2]
    exact ih

/-- Helper: any successful run of `n` hook invocations preserves the two
descriptor attributes. -/
theorem readyIter_preserves (n : Nat) (m : PyModule) (s s' : ProcState)
    (h : readyIter m n s = .ok s') :
    s'.name = s.name ∧ s'.default_auto_field = s.default_auto_field := by
  induction n generalizing s with
  | zero =>
    rw [readyIter] at h
    cases h
    exact ⟨rfl, rfl⟩
  | succ k ih =>
    rw [readyIter] at h
    cases hr : BaseConfig.ready m s with
    | error e => rw [hr] at h; cases h
    | ok p =>
      rw [hr] at h
      obtain ⟨u, t⟩ := p
      obtain ⟨hn, hd, -, -⟩ := ready_ok_inv m s u t hr
      obtain ⟨hn', hd'⟩ := ih t h
      exact ⟨hn'.trans hn, hd'.trans hd⟩

/-- C1: the descriptor's class-level string attribute `name` equals the
registry key "base", both on the class and on the instantiated
descriptor read by the host. -/
theorem c1_name_is_registry_key :
    BaseConfig.name = "base" ∧ initState.name = "base" := ⟨rfl, rfl⟩

/-- C2: for every invocation of `ready` (beyond the instance state it
takes only the sibling-module parameter that stands for code outside the
source), the method returns no value: whatever the result, its value
component is the unit embedding Python's None. -/
theorem c2_ready_returns_none (m : PyModule) (s : ProcState) :
    Except.map Prod.fst (BaseConfig.ready m s) =
      Except.map (fun _ => ()) (BaseConfig.ready m s) := by
  cases BaseConfig.ready m s with
  | error e => rfl
  | ok p => obtain ⟨u, t⟩ := p; cases u; rfl

/-- C3: the only executable behavior of `ready` is importing exactly the
two names `create_profile` and `save_profile` from the sibling signals
module: the hook is extensionally equal to the spec-side description
that performs that from-import and nothing else. -/
theorem c3_ready_is_exactly_the_import (m : PyModule) (s : ProcState) :
    BaseConfig.ready m s = readyPerSpec m s := by
  unfold BaseConfig.ready readyPerSpec
  cases fromImport m ["create_profile", "save_profile"] s <;> rfl

/-- C4: any exception raised by the import performed inside `ready` is
not caught there: `ready` returns the very same exception to its
caller. -/
theorem c4_ready_propagates_exceptions (m : PyModule) (s : ProcState) (e : PyExc)
    (h : fromImport m ["create_profile", "save_profile"] s = .error e) :
    BaseConfig.ready m s = .error e := by
  unfold BaseConfig.ready
  rw [h]

/-- A sibling module whose top-level code raises, used to exhibit the
propagation of C4 on a concrete input. -/
def brokenSignals : PyModule :=
  { exports := []
  , raisesAtTopLevel := some (PyExc.other "boom")
  , registers := [] }

/-- Witness for C4: with a sibling module whose top level raises, `ready`
surfaces exactly that exception. -/
theorem c4_witness :
    BaseConfig.ready brokenSignals initState = .error (PyExc.other "boom") :=
  c4_ready_propagates_exceptions brokenSignals initState (PyExc.other "boom") rfl

/-- C5: whenever the sibling module is importable — its top level raises
no exception — and defines both names `create_profile` and
`save_profile`, invoking `ready` does not raise. -/
theorem c5_ready_does_not_raise (m : PyModule) (s : ProcState)
    (hok : m.raisesAtTopLevel = none)
    (h1 : m.exports.contains "create_profile" = true)
    (h2 : m.exports.contains "save_profile" = true) :
    ∃ s', BaseConfig.ready m s = .ok ((), s') := by
  have m1 : "create_profile" ∈ m.exports := by simpa using h1
  have m2 : "save_profile" ∈ m.exports := by simpa using h2
  by_cases hl : s.sigModuleLoaded
  · exact ⟨s, ready_loaded_fix m s hl h1 h2⟩
  · refine ⟨{ s with sigModuleLoaded := true
                   , registrations := s.registrations ++ m.registers }, ?_⟩
    unfold BaseConfig.ready fromImport
    simp [hl, hok, m1, m2]

/-- Witness for C5 at the spec-modelled signals module and the startup
state. -/
theorem c5_witness :
    ∃ s', BaseConfig.ready signalsModule initState = .ok ((), s') :=
  c5_ready_does_not_raise signalsModule initState rfl rfl rfl

/-- C6: application code never mutates the descriptor: after any number
of successful `ready` invocations from startup, with any sibling module,
the attributes `name` and `default_auto_field` still hold the values
fixed at class definition (the state record has no other descriptor
field, so none is added or removed). -/
theorem c6_descriptor_not_mutated (m : PyModule) (n : Nat) (s' : ProcState)
    (h : readyIter m n initState = .ok s') :
    s'.name = BaseConfig.name ∧
    s'.default_auto_field = BaseConfig.default_auto_field := by
  obtain ⟨hn, hd⟩ := readyIter_preserves n m initState s' h
  exact ⟨hn, hd⟩

/-- Witness for C6 after two invocations with the spec-modelled signals
module. -/
theorem c6_witness :
    stateAfterOne.name = BaseConfig.name ∧
    stateAfterOne.default_auto_field = BaseConfig.default_auto_field :=
  c6_descriptor_not_mutated signalsModule 2 stateAfterOne rfl

/-- C7: the descriptor exposes the class-level attribute
`default_auto_field`, a nonempty string token, carried unchanged on the
instantiated descriptor for the host to read at registry-build time. -/
theorem c7_default_auto_field_exposed :
    initState.default_auto_field = BaseConfig.default_auto_field ∧
    BaseConfig.default_auto_field.length > 0 := ⟨rfl, by decide⟩

/-- C8: with the spec-modelled signals module, any positive number of
hook invocations within one process yields exactly one registration of
each of the two handlers: the first invocation registers each once and
repeated invocations add no duplicate. -/
theorem c8_exactly_one_registration (n : Nat) (hn : 1 ≤ n) (s' : ProcState)
    (h : readyIter signalsModule n initState = .ok s') :
    s'.registrations.count "create_profile" = 1 ∧
    s'.registrations.count "save_profile" = 1 := by
  obtain ⟨k, rfl⟩ : ∃ k, n = k + 1 := ⟨n - 1, by omega⟩
  have step : readyIter signalsModule (k + 1) initState
      = readyIter signalsModule k stateAfterOne := rfl
  rw [step, readyIter_fix k signalsModule stateAfterOne rfl rfl rfl] at h
  cases h
  decide

/-- Witness for C8 at three invocations. -/
theorem c8_witness :
    stateAfterOne.registrations.count "create_profile" = 1 ∧
    stateAfterOne.registrations.count "save_profile" = 1 :=
  c8_exactly_one_registration 3 (by decide) stateAfterOne rfl

/-- C9: the value of `default_auto_field` is exactly the string
"django.db.models.BigAutoField", the token naming the 64-bit
auto-increment primary-key strategy. -/
theorem c9_default_auto_field_value :
    BaseConfig.default_auto_field = "django.db.models.BigAutoField" := rfl

/-- C10: `ready` is idempotent with respect to the import side effect:
after any successful invocation the sibling module is cached, so calling
the hook again succeeds and leaves the process state unchanged — the
module's top-level code does not run a second time. -/
theorem c10_second_call_no_effect (m : PyModule) (s : ProcState) (u : Unit)
    (s' : ProcState) (h : BaseConfig.ready m s = .ok (u, s')) :
    BaseConfig.ready m s' = .ok ((), s') := by
  obtain ⟨-, -, hl, h1, h2⟩ := ready_ok_inv m s u s' h
  exact ready_loaded_fix m s' hl h1 h2

/-- Witness for C10: a second invocation right after the first one from
startup leaves the state untouched. -/
theorem c10_witness :
    BaseConfig.ready signalsModule stateAfterOne = .ok ((), stateAfterOne) :=
  c10_second_call_no_effect signalsModule initState () stateAfterOne rfl
